import Mathlib

/-
Verification development for the mimos-apps-sdk telemetry client.

The TypeScript sources (src/client.ts, src/frontend-client.ts, src/tracker.ts)
are shallowly embedded here:
  - a JavaScript string is modelled as a list of UTF-16 code units
    (`List Nat`); the helper `S` converts a Lean string literal;
  - JSON values are the inductive `Json`, and the host JSON.stringify is the
    executable `Json.stringify` (undefined-valued fields are modelled by
    omitting them from the field list, matching what JSON.stringify emits);
  - wall-clock reads (Date.now), Math.random and the fetch outcome are
    explicit parameters threaded through each operation;
  - a thrown JavaScript value is the inductive `ErrValue`: either an
    Error-shaped value (with constructor name, name, message, stack) or a
    non-Error value carrying an arbitrary JSON-representable payload;
  - each tracking method returns the list of network requests it hands to the
    transport, so that "performs no network call" is "returns []".
-/

/-- Code-unit list of a Lean string literal (all literals used are ASCII). -/
def S (s : String) : List Nat := s.data.map Char.toNat

/-- JavaScript String.prototype.toLowerCase restricted to ASCII letters,
applied per code unit (all terms the classifier searches for are ASCII). -/
def lowerCode (n : Nat) : Nat := if 65 ≤ n ∧ n ≤ 90 then n + 32 else n

/-- Lower-case every code unit of a string. -/
def lowerStr (s : List Nat) : List Nat := s.map lowerCode

/-- Does `hay` start with `needle`? (helper for `includes`). -/
def startsWith : List Nat → List Nat → Bool
  | _, [] => true
  | [], _ :: _ => false
  | a :: as, b :: bs => a == b && startsWith as bs

/-- JavaScript String.prototype.includes: substring occurrence test. -/
def includes : List Nat → List Nat → Bool
  | hay, needle =>
    startsWith hay needle ||
      match hay with
      | [] => false
      | _ :: t => includes t needle

/-- Decimal digit code units of a natural number, via Nat.toDigits. -/
def decDigits (n : Nat) : List Nat := (Nat.toDigits 10 n).map Char.toNat

mutual

/-- JSON value tree. Numbers are modelled as integers (every number the
client puts in a payload is an integer: durations, counts, timestamps). -/
inductive Json where
  | str (s : List Nat)
  | num (n : Int)
  | bool (b : Bool)
  | null
  | arr (elems : List Json)
  | obj (fields : List (List Nat × Json))

end

/-- JavaScript truthiness of a JSON-representable value. -/
def jsTruthy : Json → Bool
  | .str s => !s.isEmpty
  | .num n => n != 0
  | .bool b => b
  | .null => false
  | .arr _ => true
  | .obj _ => true

/-- JSON string escaping of one code unit, as JSON.stringify performs it:
quote and backslash are backslash-escaped, control characters use the short
forms or a \x7bu00XX\x7d escape, everything else is passed through. -/
def escapeCode (n : Nat) : List Nat :=
  if n = 34 then [92, 34]
  else if n = 92 then [92, 92]
  else if n = 8 then [92, 98]
  else if n = 9 then [92, 116]
  else if n = 10 then [92, 110]
  else if n = 12 then [92, 102]
  else if n = 13 then [92, 114]
  else if n < 32 then
    [92, 117, 48, 48] ++ decDigits (n / 16) ++ decDigits (n % 16)
  else [n]

/-- Render an integer the way JSON.stringify renders integral numbers. -/
def intDigits (i : Int) : List Nat :=
  if i < 0 then 45 :: decDigits i.natAbs else decDigits i.natAbs

mutual

/-- The host JSON.stringify on the modelled JSON tree. -/
def Json.stringify : Json → List Nat
  | .str s => 34 :: (s.flatMap escapeCode) ++ [34]
  | .num n => intDigits n
  | .bool b => if b then S "true" else S "false"
  | .null => S "null"
  | .arr elems => 91 :: Json.stringifyArr elems ++ [93]
  | .obj fields => 123 :: Json.stringifyObj fields ++ [125]

/-- Comma-separated rendering of array elements. -/
def Json.stringifyArr : List Json → List Nat
  | [] => []
  | [x] => Json.stringify x
  | x :: y :: rest => Json.stringify x ++ 44 :: Json.stringifyArr (y :: rest)

/-- Comma-separated rendering of object fields. -/
def Json.stringifyObj : List (List Nat × Json) → List Nat
  | [] => []
  | [(k, v)] => Json.stringify (.str k) ++ 58 :: Json.stringify v
  | (k, v) :: f :: rest =>
    Json.stringify (.str k) ++ 58 :: Json.stringify v ++
      44 :: Json.stringifyObj (f :: rest)

end

/-- First field of a JSON object with the given key (none on non-objects
or missing keys); models JavaScript property lookup on payload objects. -/
def Json.getField : Json → List Nat → Option Json
  | .obj fields, k => fieldsGet fields k
  | _, _ => none
where
  fieldsGet : List (List Nat × Json) → List Nat → Option Json
    | [], _ => none
    | (k', v) :: rest, k => if k' = k then some v else fieldsGet rest k

/-- A field list entry that is present only when the value is defined;
models JSON.stringify omitting undefined-valued properties. -/
def optField (k : List Nat) : Option Json → List (List Nat × Json)
  | some v => [(k, v)]
  | none => []

/-- A thrown JavaScript value as the tracker sees it: Error-shaped (with
the constructor name, the name property, the message and an optional stack)
or any other value. -/
inductive ErrValue where
  | err (ctorName name message : List Nat) (stack : Option (List Nat))
  | nonError (v : Json)

/-- The ToolErrorType enumeration from src/types.ts. -/
inductive ToolErrorType where
  | validation
  | timeout
  | internal
  | external
  | rate_limit
  | unknown
deriving DecidableEq, Repr

/-- `opt || fallback` on an optional string, with JavaScript falsiness:
an absent or empty string selects the fallback. -/
def jsOrStr (opt : Option (List Nat)) (fallback : List Nat) : List Nat :=
  match opt with
  | some s => if s.isEmpty then fallback else s
  | none => fallback

namespace ToolCallTracker

/-- ToolCallTracker.inferErrorType from src/tracker.ts: ordered substring
checks over the lower-cased error name and message, first match winning;
non-Error values classify as unknown. -/
def inferErrorType (error : ErrValue) : ToolErrorType :=
  match error with
  | .nonError _ => .unknown
  | .err _ nm msg _ =>
    let message := lowerStr msg
    let name := lowerStr nm
    if includes name (S "timeout") || includes message (S "timeout") ||
        includes message (S "timed out") then
      .timeout
    else if includes name (S "validation") || includes message (S "invalid") ||
        includes message (S "required") then
      .validation
    else if includes message (S "rate limit") ||
        includes message (S "too many requests") ||
        includes message (S "429") then
      .rate_limit
    else if includes message (S "network") || includes message (S "fetch") ||
        includes message (S "econnrefused") then
      .external
    else
      .internal

end ToolCallTracker

theorem lowerCode_idem (n : Nat) : lowerCode (lowerCode n) = lowerCode n := by
  by_cases h : 65 ≤ n ∧ n ≤ 90
  · have h2 : ¬(65 ≤ n + 32 ∧ n + 32 ≤ 90) := by omega
    simp only [lowerCode, if_pos h, if_neg h2]
  · simp [lowerCode, h]

theorem lowerStr_idem (s : List Nat) : lowerStr (lowerStr s) = lowerStr s := by
  induction s with
  | nil => rfl
  | cons a t ih =>
    simp only [lowerStr, List.map_cons] at *
    exact congrArg₂ _ (lowerCode_idem a) ih

/-- One trailing slash removed when present: baseUrl.replace with the
regex slash-dollar, as both constructors do. -/
def stripTrailingSlash (s : List Nat) : List Nat :=
  if s.getLast? = some 47 then s.dropLast else s

/-- An HTTP POST handed to the transport: url, headers and the string body. -/
structure Request where
  url : List Nat
  headers : List (List Nat × List Nat)
  body : List Nat
deriving DecidableEq

/-- The wire envelope both variants build: an object with exactly the two
fields event_type and metric_value, the latter holding the JSON string
encoding of the inner payload. -/
def envelope (eventType : List Nat) (payload : Json) : Json :=
  Json.obj [(S "event_type", Json.str eventType),
            (S "metric_value", Json.str payload.stringify)]

/-- Outcome of one fetch call: a response (ok flag, status, body text) or a
thrown value (an abort on timeout throws an AbortError-named error). -/
inductive FetchResult where
  | response (ok : Bool) (status : Nat) (body : List Nat)
  | thrown (e : ErrValue)

/-- Does the catch clause see an AbortError (error instanceof Error and
error.name equal to AbortError)? -/
def isAbortError : ErrValue → Bool
  | .err _ nm _ _ => nm == S "AbortError"
  | .nonError _ => false

/-- Console output of one sendMetric delivery attempt, as the shared
try/catch in both sendMetric implementations produces it; the function
returns normally on every branch (delivery errors are only logged). -/
def sendMetricLogs (tag : List Nat) (fetch : FetchResult) : List (List Nat) :=
  match fetch with
  | .response true _ _ => []
  | .response false status body =>
    [tag ++ S " Failed to send metric: " ++ decDigits status ++ 32 :: body]
  | .thrown e =>
    if isAbortError e then [tag ++ S " Request timed out"]
    else [tag ++ S " Failed to send metric:"]

/-- MimosAnalyticsConfig from src/types.ts (optional fields as Option). -/
structure MimosAnalyticsConfig where
  baseUrl : List Nat
  projectId : List Nat
  apiKey : List Nat
  timeout : Option Nat
  disabled : Option Bool

/-- A constructed MimosAnalytics instance: the defaulted configuration plus
the endpoint URL computed once at construction. -/
structure MimosAnalytics where
  baseUrl : List Nat
  projectId : List Nat
  apiKey : List Nat
  timeout : Nat
  disabled : Bool
  backendMetricsUrl : List Nat

namespace MimosAnalytics

/-- The MimosAnalytics constructor: spread defaults (timeout 5000, disabled
false), strip one trailing slash off baseUrl, append the fixed suffix. -/
def create (cfg : MimosAnalyticsConfig) : MimosAnalytics :=
  { baseUrl := cfg.baseUrl
    projectId := cfg.projectId
    apiKey := cfg.apiKey
    timeout := cfg.timeout.getD 5000
    disabled := cfg.disabled.getD false
    backendMetricsUrl :=
      stripTrailingSlash cfg.baseUrl ++ S "/v1/backend-metrics/write/" }

/-- The POST that sendMetric issues for one envelope. -/
def request (a : MimosAnalytics) (eventType : List Nat) (payload : Json) :
    Request :=
  { url := a.backendMetricsUrl
    headers := [(S "Content-Type", S "application/json"),
                (S "anon-project-id", a.projectId),
                (S "api-key", a.apiKey)]
    body := (envelope eventType payload).stringify }

/-- trackToolCall: no-op when disabled, else one tool_call envelope. -/
def trackToolCall (a : MimosAnalytics) (payload : Json) : List Request :=
  if a.disabled then [] else [a.request (S "tool_call") payload]

/-- trackToolError: no-op when disabled, else one tool_error envelope. -/
def trackToolError (a : MimosAnalytics) (payload : Json) : List Request :=
  if a.disabled then [] else [a.request (S "tool_error") payload]

end MimosAnalytics

/-- Wire name of each ToolErrorType value. -/
def ToolErrorType.wire : ToolErrorType → List Nat
  | .validation => S "validation"
  | .timeout => S "timeout"
  | .internal => S "internal"
  | .external => S "external"
  | .rate_limit => S "rate_limit"
  | .unknown => S "unknown"

/-- ToolCallPayload (src/types.ts); optional fields model properties that
JSON.stringify omits when undefined. -/
structure ToolCallPayload where
  tool_name : List Nat
  call_id : Option (List Nat)
  duration_ms : Nat
  status : List Nat
  parameters : Option (List Nat)
  response_size_bytes : Option Nat
  timestamp_ms : Nat

/-- The JSON object trackSuccess builds, fields in literal order. -/
def ToolCallPayload.toJson (p : ToolCallPayload) : Json :=
  Json.obj ([(S "tool_name", Json.str p.tool_name),
             (S "duration_ms", Json.num p.duration_ms),
             (S "status", Json.str p.status),
             (S "timestamp_ms", Json.num p.timestamp_ms)] ++
    optField (S "call_id") (p.call_id.map Json.str) ++
    optField (S "parameters") (p.parameters.map Json.str) ++
    optField (S "response_size_bytes") (p.response_size_bytes.map
      (fun n => Json.num n)))

/-- ToolErrorPayload (src/types.ts). error_message is typed string in
TypeScript but at runtime holds whatever value the extraction produced, so
it is modelled as a JSON value. -/
structure ToolErrorPayload where
  tool_name : List Nat
  call_id : Option (List Nat)
  error_code : List Nat
  error_message : Json
  error_type : ToolErrorType
  parameters : Option (List Nat)
  stack_trace : Option (List Nat)
  timestamp_ms : Nat

/-- The JSON object trackError builds, fields in literal order. -/
def ToolErrorPayload.toJson (p : ToolErrorPayload) : Json :=
  Json.obj ([(S "tool_name", Json.str p.tool_name),
             (S "error_code", Json.str p.error_code),
             (S "error_message", p.error_message),
             (S "error_type", Json.str p.error_type.wire),
             (S "timestamp_ms", Json.num p.timestamp_ms)] ++
    optField (S "call_id") (p.call_id.map Json.str) ++
    optField (S "parameters") (p.parameters.map Json.str) ++
    optField (S "stack_trace") (p.stack_trace.map Json.str))

namespace MimosAnalytics

/-- Message extraction in trackError: the message property when the value
is Error-shaped, otherwise the raw value itself. -/
def extractErrorMessage (error : ErrValue) : Json :=
  match error with
  | .err _ _ msg _ => Json.str msg
  | .nonError v => v

/-- error_code in the backend trackError: the caller override when truthy,
else the constructor name of an Error-shaped value, else the literal
string Error. -/
def extractErrorCode (override : Option (List Nat)) (error : ErrValue) :
    List Nat :=
  jsOrStr override
    (match error with
     | .err ctorName _ _ _ => ctorName
     | .nonError _ => S "Error")

/-- Stack extraction shared by both variants: the stack property of an
Error-shaped value, else undefined. -/
def extractStackTrace (error : ErrValue) : Option (List Nat) :=
  match error with
  | .err _ _ _ stack => stack
  | .nonError _ => none

/-- Options record of trackSuccess. -/
structure TrackSuccessOptions where
  callId : Option (List Nat) := none
  parameters : Option (List Nat) := none
  responseSizeBytes : Option Nat := none

/-- Options record of trackError. -/
structure TrackErrorOptions where
  callId : Option (List Nat) := none
  parameters : Option (List Nat) := none
  errorType : Option ToolErrorType := none
  errorCode : Option (List Nat) := none

/-- trackSuccess: build a success tool_call payload with a fresh timestamp
and forward it through trackToolCall. -/
def trackSuccess (a : MimosAnalytics) (toolName : List Nat)
    (durationMs : Nat) (opts : TrackSuccessOptions) (now : Nat) :
    List Request :=
  a.trackToolCall (ToolCallPayload.toJson
    { tool_name := toolName
      duration_ms := durationMs
      status := S "success"
      timestamp_ms := now
      call_id := opts.callId
      parameters := opts.parameters
      response_size_bytes := opts.responseSizeBytes })

/-- trackError: extract message, code and stack from the failure value,
default the error type to unknown, forward through trackToolError. -/
def trackError (a : MimosAnalytics) (toolName : List Nat) (error : ErrValue)
    (opts : TrackErrorOptions) (now : Nat) : List Request :=
  a.trackToolError (ToolErrorPayload.toJson
    { tool_name := toolName
      error_code := extractErrorCode opts.errorCode error
      error_message := extractErrorMessage error
      error_type := opts.errorType.getD .unknown
      timestamp_ms := now
      call_id := opts.callId
      parameters := opts.parameters
      stack_trace := extractStackTrace error })

end MimosAnalytics

/-- generateCallId from src/tracker.ts: epoch milliseconds, a hyphen, then
substring(2, 11) of Math.random().toString(36) — the latter renders as the
two characters 0. followed by the fractional base36 digits `rand`, so the
suffix is the first nine of those digits. -/
def generateCallId (idNow : Nat) (rand : List Nat) : List Nat :=
  decDigits idNow ++ 45 :: rand.take 9

/-- TrackedCallResult from src/types.ts. -/
structure TrackedCallResult (T : Type) where
  result : T
  durationMs : Nat
  callId : List Nat

namespace ToolCallTracker

/-- Options record of track and trackWithMetadata. -/
structure TrackOptions where
  callId : Option (List Nat) := none
  parameters : Option Json := none
  errorType : Option ToolErrorType := none

/-- Environment a tracked call runs in: the Date.now readings (at call-id
generation, at start, at completion and at report construction), the random
base36 digits, and the outcome of the telemetry fetch. -/
structure TrackEnv where
  idNow : Nat := 0
  rand : List Nat := []
  startNow : Nat := 0
  endNow : Nat := 0
  reportNow : Nat := 0
  fetch : FetchResult := .response true 200 []

/-- The parameters string track computes: JSON.stringify of the supplied
parameters when they are truthy, else undefined. -/
def parametersString (parameters : Option Json) : Option (List Nat) :=
  match parameters with
  | some p => if jsTruthy p then some (Json.stringify p) else none
  | none => none

/-- ToolCallTracker.track: resolve the call id (a supplied falsy id is
replaced by a generated one), run the operation, report success or error
fire-and-forget, and hand the operation outcome back unchanged. The
components are the outcome returned to the caller, the requests handed to
the transport, and the console output of the delivery attempt. -/
def track {T : Type} (a : MimosAnalytics) (toolName : List Nat)
    (fnOutcome : Except ErrValue T) (resultJson : Option Json)
    (opts : TrackOptions) (env : TrackEnv) :
    Except ErrValue T × List Request × List (List Nat) :=
  let callId := jsOrStr opts.callId (generateCallId env.idNow env.rand)
  let parametersStr := parametersString opts.parameters
  match fnOutcome with
  | .ok result =>
    let durationMs := env.endNow - env.startNow
    let responseSizeBytes := resultJson.map (fun j => (Json.stringify j).length)
    let reqs := a.trackSuccess toolName durationMs
      { callId := some callId
        parameters := parametersStr
        responseSizeBytes := responseSizeBytes } env.reportNow
    (.ok result, reqs,
      if reqs.isEmpty then [] else sendMetricLogs (S "[MimosAnalytics]") env.fetch)
  | .error e =>
    let _durationMs := env.endNow - env.startNow
    let reqs := a.trackError toolName e
      { callId := some callId
        parameters := parametersStr
        errorType := some (opts.errorType.getD (inferErrorType e))
        errorCode := none } env.reportNow
    (.error e, reqs,
      if reqs.isEmpty then [] else sendMetricLogs (S "[MimosAnalytics]") env.fetch)

/-- ToolCallTracker.trackWithMetadata: identical to track but the success
value is wrapped with the duration and call id. -/
def trackWithMetadata {T : Type} (a : MimosAnalytics) (toolName : List Nat)
    (fnOutcome : Except ErrValue T) (resultJson : Option Json)
    (opts : TrackOptions) (env : TrackEnv) :
    Except ErrValue (TrackedCallResult T) × List Request × List (List Nat) :=
  let callId := jsOrStr opts.callId (generateCallId env.idNow env.rand)
  let parametersStr := parametersString opts.parameters
  match fnOutcome with
  | .ok result =>
    let durationMs := env.endNow - env.startNow
    let responseSizeBytes := resultJson.map (fun j => (Json.stringify j).length)
    let reqs := a.trackSuccess toolName durationMs
      { callId := some callId
        parameters := parametersStr
        responseSizeBytes := responseSizeBytes } env.reportNow
    (.ok { result := result, durationMs := durationMs, callId := callId }, reqs,
      if reqs.isEmpty then [] else sendMetricLogs (S "[MimosAnalytics]") env.fetch)
  | .error e =>
    let _durationMs := env.endNow - env.startNow
    let reqs := a.trackError toolName e
      { callId := some callId
        parameters := parametersStr
        errorType := some (opts.errorType.getD (inferErrorType e))
        errorCode := none } env.reportNow
    (.error e, reqs,
      if reqs.isEmpty then [] else sendMetricLogs (S "[MimosAnalytics]") env.fetch)

/-- The argument capture of wrap: a single argument is recorded alone,
any other arity records the full ordered argument list. -/
def wrapParameters (args : List Json) : Json :=
  if args.length = 1 then args.headD Json.null else Json.arr args

/-- ToolCallTracker.wrap applied at one invocation: the wrapped function
calls track with the captured arguments as parameters; fnOutcome is the
outcome of fn applied to args. -/
def wrap {T : Type} (a : MimosAnalytics) (toolName : List Nat)
    (errorType : Option ToolErrorType) (args : List Json)
    (fnOutcome : Except ErrValue T) (resultJson : Option Json)
    (env : TrackEnv) :
    Except ErrValue T × List Request × List (List Nat) :=
  track a toolName fnOutcome resultJson
    { callId := none
      parameters := some (wrapParameters args)
      errorType := errorType } env

end ToolCallTracker

/-- MotionSwipePayload (src/frontend-types.ts). -/
structure MotionSwipePayload where
  direction : List Nat
  start_x : Int
  start_y : Int
  end_x : Int
  end_y : Int
  velocity : Option Int := none
  duration_ms : Int
  screen_name : List Nat

/-- Caller payload object of trackSwipe, fields in interface order. -/
def MotionSwipePayload.toJson (p : MotionSwipePayload) : Json :=
  Json.obj ([(S "direction", Json.str p.direction),
             (S "start_x", Json.num p.start_x),
             (S "start_y", Json.num p.start_y),
             (S "end_x", Json.num p.end_x),
             (S "end_y", Json.num p.end_y)] ++
    optField (S "velocity") (p.velocity.map Json.num) ++
    [(S "duration_ms", Json.num p.duration_ms),
     (S "screen_name", Json.str p.screen_name)])

/-- MotionScrollPayload (src/frontend-types.ts). -/
structure MotionScrollPayload where
  direction : List Nat
  scroll_depth_px : Int
  scroll_depth_percent : Option Int := none
  start_position : Int
  end_position : Int
  duration_ms : Int
  screen_name : List Nat

/-- Caller payload object of trackScroll, fields in interface order. -/
def MotionScrollPayload.toJson (p : MotionScrollPayload) : Json :=
  Json.obj ([(S "direction", Json.str p.direction),
             (S "scroll_depth_px", Json.num p.scroll_depth_px)] ++
    optField (S "scroll_depth_percent") (p.scroll_depth_percent.map Json.num) ++
    [(S "start_position", Json.num p.start_position),
     (S "end_position", Json.num p.end_position),
     (S "duration_ms", Json.num p.duration_ms),
     (S "screen_name", Json.str p.screen_name)])

/-- ElementFocusPayload (src/frontend-types.ts). -/
structure ElementFocusPayload where
  element_id : List Nat
  element_type : List Nat
  screen_name : List Nat
  focus_duration_ms : Int
  had_interaction : Bool
  field_name : Option (List Nat) := none

/-- Caller payload object of trackElementFocus, fields in interface order. -/
def ElementFocusPayload.toJson (p : ElementFocusPayload) : Json :=
  Json.obj ([(S "element_id", Json.str p.element_id),
             (S "element_type", Json.str p.element_type),
             (S "screen_name", Json.str p.screen_name),
             (S "focus_duration_ms", Json.num p.focus_duration_ms),
             (S "had_interaction", Json.bool p.had_interaction)] ++
    optField (S "field_name") (p.field_name.map Json.str))

/-- ButtonClickPayload (src/frontend-types.ts), for the raw send variant. -/
structure ButtonClickPayload where
  button_id : List Nat
  button_text : Option (List Nat) := none
  screen_name : List Nat
  x_position : Option Int := none
  y_position : Option Int := none
  timestamp_ms : Nat

/-- Caller payload object of sendButtonClick, fields in interface order. -/
def ButtonClickPayload.toJson (p : ButtonClickPayload) : Json :=
  Json.obj ([(S "button_id", Json.str p.button_id)] ++
    optField (S "button_text") (p.button_text.map Json.str) ++
    [(S "screen_name", Json.str p.screen_name)] ++
    optField (S "x_position") (p.x_position.map Json.num) ++
    optField (S "y_position") (p.y_position.map Json.num) ++
    [(S "timestamp_ms", Json.num p.timestamp_ms)])

/-- AppLoadSuccessPayload (src/frontend-types.ts). -/
structure AppLoadSuccessPayload where
  screen_name : List Nat
  load_time_ms : Int
  is_cold_start : Bool
  network_type : Option (List Nat) := none
  ttfb_ms : Option Int := none
  resource_count : Option Int := none
  cache_hit : Option Bool := none

/-- Caller payload object of sendAppLoadSuccess, fields in interface
order. -/
def AppLoadSuccessPayload.toJson (p : AppLoadSuccessPayload) : Json :=
  Json.obj ([(S "screen_name", Json.str p.screen_name),
             (S "load_time_ms", Json.num p.load_time_ms),
             (S "is_cold_start", Json.bool p.is_cold_start)] ++
    optField (S "network_type") (p.network_type.map Json.str) ++
    optField (S "ttfb_ms") (p.ttfb_ms.map Json.num) ++
    optField (S "resource_count") (p.resource_count.map Json.num) ++
    optField (S "cache_hit") (p.cache_hit.map Json.bool))

/-- AppLoadErrorPayload (src/frontend-types.ts); error_type is one of the
strings network, timeout, server, parse, unknown. -/
structure AppLoadErrorPayload where
  screen_name : List Nat
  error_code : List Nat
  error_message : List Nat
  error_type : List Nat
  http_status : Option Int := none
  retry_count : Option Int := none
  stack_trace : Option (List Nat) := none

/-- Caller payload object of sendAppLoadError, fields in interface order. -/
def AppLoadErrorPayload.toJson (p : AppLoadErrorPayload) : Json :=
  Json.obj ([(S "screen_name", Json.str p.screen_name),
             (S "error_code", Json.str p.error_code),
             (S "error_message", Json.str p.error_message),
             (S "error_type", Json.str p.error_type)] ++
    optField (S "http_status") (p.http_status.map Json.num) ++
    optField (S "retry_count") (p.retry_count.map Json.num) ++
    optField (S "stack_trace") (p.stack_trace.map Json.str))

/-- The argument of startSession: SessionStartPayload with session_id made
optional (Omit plus an optional session_id). -/
structure SessionStartInput where
  session_id : Option (List Nat) := none
  device_type : List Nat
  os_name : List Nat
  os_version : List Nat
  app_version : List Nat
  device_model : Option (List Nat) := none
  screen_width : Option Int := none
  screen_height : Option Int := none
  locale : Option (List Nat) := none
  timezone : Option (List Nat) := none

/-- The session_start payload startSession emits: the caller fields with
the resolved session_id spread over them. -/
def SessionStartInput.toJsonWith (p : SessionStartInput)
    (sessionId : List Nat) : Json :=
  Json.obj ([(S "device_type", Json.str p.device_type),
             (S "os_name", Json.str p.os_name),
             (S "os_version", Json.str p.os_version),
             (S "app_version", Json.str p.app_version)] ++
    optField (S "device_model") (p.device_model.map Json.str) ++
    optField (S "screen_width") (p.screen_width.map Json.num) ++
    optField (S "screen_height") (p.screen_height.map Json.num) ++
    optField (S "locale") (p.locale.map Json.str) ++
    optField (S "timezone") (p.timezone.map Json.str) ++
    [(S "session_id", Json.str sessionId)])

/-- MimosFrontendConfig from src/frontend-types.ts. -/
structure MimosFrontendConfig where
  baseUrl : List Nat
  projectId : List Nat
  timeout : Option Nat := none
  disabled : Option Bool := none

/-- A constructed MimosFrontendAnalytics instance: defaulted configuration
plus the endpoint URL computed once at construction (the mutable session
fields live in FrontendState and are passed explicitly). -/
structure MimosFrontendAnalytics where
  baseUrl : List Nat
  projectId : List Nat
  timeout : Nat
  disabled : Bool
  frontendMetricsUrl : List Nat

/-- The mutable instance fields of MimosFrontendAnalytics, with their
initializers. -/
structure FrontendState where
  sessionId : Option (List Nat) := none
  sessionStartTime : Option Nat := none
  screenHistory : List (List Nat) := []
  eventCount : Nat := 0
deriving DecidableEq

namespace MimosFrontendAnalytics

/-- The MimosFrontendAnalytics constructor. -/
def create (cfg : MimosFrontendConfig) : MimosFrontendAnalytics :=
  { baseUrl := cfg.baseUrl
    projectId := cfg.projectId
    timeout := cfg.timeout.getD 5000
    disabled := cfg.disabled.getD false
    frontendMetricsUrl :=
      stripTrailingSlash cfg.baseUrl ++ S "/v1/frontend-metrics/write/" }

/-- The POST that the frontend sendMetric issues (no api-key header). -/
def request (c : MimosFrontendAnalytics) (eventType : List Nat)
    (payload : Json) : Request :=
  { url := c.frontendMetricsUrl
    headers := [(S "Content-Type", S "application/json"),
                (S "anon-project-id", c.projectId)]
    body := (envelope eventType payload).stringify }

/-- sendMetric: returns without any request when disabled, else hands one
enveloped POST to the transport. -/
def sendMetric (c : MimosFrontendAnalytics) (eventType : List Nat)
    (payload : Json) : List Request :=
  if c.disabled then [] else [c.request eventType payload]

/-- generateSessionId from src/frontend-client.ts (same shape as the
tracker's generateCallId). -/
def generateSessionId (idNow : Nat) (rand : List Nat) : List Nat :=
  decDigits idNow ++ 45 :: rand.take 9

/-- updateScreenHistory: append the screen name only when it differs from
the current last entry. -/
def updateScreenHistory (history : List (List Nat))
    (screenName : List Nat) : List (List Nat) :=
  if history.getLast? = some screenName then history
  else history ++ [screenName]

/-- startSession: resolve the session id (a falsy supplied id is replaced
by a generated one), reset the session state, emit session_start with the
resolved id merged in, and return the id. idNow and rand feed the
generator; now is the Date.now reading stored as the start time. -/
def startSession (c : MimosFrontendAnalytics) (_st : FrontendState)
    (payload : SessionStartInput) (idNow : Nat) (rand : List Nat)
    (now : Nat) : FrontendState × List Request × List Nat :=
  let sessionId := jsOrStr payload.session_id (generateSessionId idNow rand)
  let st' : FrontendState :=
    { sessionId := some sessionId
      sessionStartTime := some now
      screenHistory := []
      eventCount := 0 }
  (st', c.sendMetric (S "session_start") (payload.toJsonWith sessionId),
    sessionId)

/-- The session_end payload endSession builds, fields in literal order;
last_screen is omitted when the screen history is empty. -/
def sessionEndJson (sessionId : List Nat) (durationMs : Nat)
    (exitReason : List Nat) (screensVisited : Nat) (totalEvents : Nat)
    (lastScreen : Option (List Nat)) : Json :=
  Json.obj ([(S "session_id", Json.str sessionId),
             (S "session_duration_ms", Json.num durationMs),
             (S "exit_reason", Json.str exitReason),
             (S "screens_visited", Json.num screensVisited),
             (S "total_events", Json.num totalEvents)] ++
    optField (S "last_screen") (lastScreen.map Json.str))

/-- endSession: with no active session (a falsy session id or start time)
warn and return with no request and the state untouched; otherwise emit
session_end derived from the accumulated state and clear the session id
and start time. The third component is the console warning output. -/
def endSession (c : MimosFrontendAnalytics) (st : FrontendState)
    (exitReason : List Nat) (now : Nat) :
    FrontendState × List Request × List (List Nat) :=
  match st.sessionId, st.sessionStartTime with
  | some sessionId, some startTime =>
    if sessionId.isEmpty || startTime == 0 then
      (st, [], [S "[MimosFrontendAnalytics] No active session to end"])
    else
      ({ st with sessionId := none, sessionStartTime := none },
        c.sendMetric (S "session_end")
          (sessionEndJson sessionId (now - startTime) exitReason
            st.screenHistory.length st.eventCount st.screenHistory.getLast?),
        [])
  | _, _ => (st, [], [S "[MimosFrontendAnalytics] No active session to end"])

/-- getSessionId: pure accessor. -/
def getSessionId (st : FrontendState) : Option (List Nat) := st.sessionId

/-- trackButtonClick: count the event, track the screen, emit button_click
with a fresh timestamp. -/
def trackButtonClick (c : MimosFrontendAnalytics) (st : FrontendState)
    (buttonId screenName : List Nat) (buttonText : Option (List Nat))
    (x y : Option Int) (now : Nat) : FrontendState × List Request :=
  ({ st with eventCount := st.eventCount + 1,
             screenHistory := updateScreenHistory st.screenHistory screenName },
    c.sendMetric (S "button_click")
      (Json.obj ([(S "button_id", Json.str buttonId),
                  (S "screen_name", Json.str screenName)] ++
        optField (S "button_text") (buttonText.map Json.str) ++
        optField (S "x_position") (x.map Json.num) ++
        optField (S "y_position") (y.map Json.num) ++
        [(S "timestamp_ms", Json.num now)])))

/-- trackSwipe: count, track the payload screen, emit motion_swipe. -/
def trackSwipe (c : MimosFrontendAnalytics) (st : FrontendState)
    (p : MotionSwipePayload) : FrontendState × List Request :=
  ({ st with eventCount := st.eventCount + 1,
             screenHistory := updateScreenHistory st.screenHistory p.screen_name },
    c.sendMetric (S "motion_swipe") p.toJson)

/-- trackScroll: count, track the payload screen, emit motion_scroll. -/
def trackScroll (c : MimosFrontendAnalytics) (st : FrontendState)
    (p : MotionScrollPayload) : FrontendState × List Request :=
  ({ st with eventCount := st.eventCount + 1,
             screenHistory := updateScreenHistory st.screenHistory p.screen_name },
    c.sendMetric (S "motion_scroll") p.toJson)

/-- trackElementFocus: count, track the payload screen, emit
element_focus. -/
def trackElementFocus (c : MimosFrontendAnalytics) (st : FrontendState)
    (p : ElementFocusPayload) : FrontendState × List Request :=
  ({ st with eventCount := st.eventCount + 1,
             screenHistory := updateScreenHistory st.screenHistory p.screen_name },
    c.sendMetric (S "element_focus") p.toJson)

/-- Options record of trackLoadSuccess. -/
structure LoadSuccessOptions where
  isColdStart : Option Bool := none
  networkType : Option (List Nat) := none
  ttfbMs : Option Int := none
  resourceCount : Option Int := none
  cacheHit : Option Bool := none

/-- trackLoadSuccess: count, track the screen, emit app_load_success with
is_cold_start defaulted to false by nullish coalescing. -/
def trackLoadSuccess (c : MimosFrontendAnalytics) (st : FrontendState)
    (screenName : List Nat) (loadTimeMs : Int) (opts : LoadSuccessOptions) :
    FrontendState × List Request :=
  ({ st with eventCount := st.eventCount + 1,
             screenHistory := updateScreenHistory st.screenHistory screenName },
    c.sendMetric (S "app_load_success")
      (Json.obj ([(S "screen_name", Json.str screenName),
                  (S "load_time_ms", Json.num loadTimeMs),
                  (S "is_cold_start", Json.bool (opts.isColdStart.getD false))] ++
        optField (S "network_type") (opts.networkType.map Json.str) ++
        optField (S "ttfb_ms") (opts.ttfbMs.map Json.num) ++
        optField (S "resource_count") (opts.resourceCount.map Json.num) ++
        optField (S "cache_hit") (opts.cacheHit.map Json.bool))))

/-- Message extraction in trackLoadError: the message property when the
value is Error-shaped, otherwise the raw value itself. -/
def extractErrorMessage (error : ErrValue) : Json :=
  match error with
  | .err _ _ msg _ => Json.str msg
  | .nonError v => v

/-- error_code in the frontend trackLoadError: the caller override when
truthy, else the name property of an Error-shaped value, else the literal
string Error. -/
def extractErrorCode (override : Option (List Nat)) (error : ErrValue) :
    List Nat :=
  jsOrStr override
    (match error with
     | .err _ name _ _ => name
     | .nonError _ => S "Error")

/-- Stack extraction in trackLoadError: the stack property of an
Error-shaped value, else undefined. -/
def extractStackTrace (error : ErrValue) : Option (List Nat) :=
  match error with
  | .err _ _ _ stack => stack
  | .nonError _ => none

/-- Options record of trackLoadError. -/
structure LoadErrorOptions where
  errorType : Option (List Nat) := none
  errorCode : Option (List Nat) := none
  httpStatus : Option Int := none
  retryCount : Option Int := none

/-- trackLoadError: count, track the screen, extract message, code and
stack from the failure value, default error_type to unknown, emit
app_load_error. -/
def trackLoadError (c : MimosFrontendAnalytics) (st : FrontendState)
    (screenName : List Nat) (error : ErrValue) (opts : LoadErrorOptions) :
    FrontendState × List Request :=
  ({ st with eventCount := st.eventCount + 1,
             screenHistory := updateScreenHistory st.screenHistory screenName },
    c.sendMetric (S "app_load_error")
      (Json.obj ([(S "screen_name", Json.str screenName),
                  (S "error_code",
                    Json.str (extractErrorCode opts.errorCode error)),
                  (S "error_message", extractErrorMessage error),
                  (S "error_type",
                    Json.str (jsOrStr opts.errorType (S "unknown")))] ++
        optField (S "http_status") (opts.httpStatus.map Json.num) ++
        optField (S "retry_count") (opts.retryCount.map Json.num) ++
        optField (S "stack_trace") ((extractStackTrace error).map Json.str))))

/-- sendButtonClick: raw variant, still counted and screen-tracked. -/
def sendButtonClick (c : MimosFrontendAnalytics) (st : FrontendState)
    (p : ButtonClickPayload) : FrontendState × List Request :=
  ({ st with eventCount := st.eventCount + 1,
             screenHistory := updateScreenHistory st.screenHistory p.screen_name },
    c.sendMetric (S "button_click") p.toJson)

/-- sendSessionStart: raw variant; forwards the caller payload without
touching counters or history. -/
def sendSessionStart (c : MimosFrontendAnalytics) (st : FrontendState)
    (p : Json) : FrontendState × List Request :=
  (st, c.sendMetric (S "session_start") p)

/-- sendSessionEnd: raw variant; forwards the caller payload without
touching counters or history. -/
def sendSessionEnd (c : MimosFrontendAnalytics) (st : FrontendState)
    (p : Json) : FrontendState × List Request :=
  (st, c.sendMetric (S "session_end") p)

/-- sendAppLoadSuccess: raw variant, still counted and screen-tracked. -/
def sendAppLoadSuccess (c : MimosFrontendAnalytics) (st : FrontendState)
    (p : AppLoadSuccessPayload) : FrontendState × List Request :=
  ({ st with eventCount := st.eventCount + 1,
             screenHistory := updateScreenHistory st.screenHistory p.screen_name },
    c.sendMetric (S "app_load_success") p.toJson)

/-- sendAppLoadError: raw variant, still counted and screen-tracked. -/
def sendAppLoadError (c : MimosFrontendAnalytics) (st : FrontendState)
    (p : AppLoadErrorPayload) : FrontendState × List Request :=
  ({ st with eventCount := st.eventCount + 1,
             screenHistory := updateScreenHistory st.screenHistory p.screen_name },
    c.sendMetric (S "app_load_error") p.toJson)

end MimosFrontendAnalytics

/-- One frontend tracking call made while a session is open, with the
arguments the corresponding method receives (raw session start and end
sends carry an opaque payload object). -/
inductive FCall where
  | buttonClick (buttonId screenName : List Nat)
      (buttonText : Option (List Nat)) (x y : Option Int) (now : Nat)
  | swipe (p : MotionSwipePayload)
  | scroll (p : MotionScrollPayload)
  | elementFocus (p : ElementFocusPayload)
  | loadSuccess (screenName : List Nat) (loadTimeMs : Int)
      (opts : MimosFrontendAnalytics.LoadSuccessOptions)
  | loadError (screenName : List Nat) (error : ErrValue)
      (opts : MimosFrontendAnalytics.LoadErrorOptions)
  | rawButtonClick (p : ButtonClickPayload)
  | rawSessionStart (p : Json)
  | rawSessionEnd (p : Json)
  | rawAppLoadSuccess (p : AppLoadSuccessPayload)
  | rawAppLoadError (p : AppLoadErrorPayload)

namespace FCall

open MimosFrontendAnalytics

/-- Dispatch one tracking call to the method it denotes. -/
def step (c : MimosFrontendAnalytics) (st : FrontendState) :
    FCall → FrontendState × List Request
  | .buttonClick bid sn bt x y now => trackButtonClick c st bid sn bt x y now
  | .swipe p => trackSwipe c st p
  | .scroll p => trackScroll c st p
  | .elementFocus p => trackElementFocus c st p
  | .loadSuccess sn lt opts => trackLoadSuccess c st sn lt opts
  | .loadError sn e opts => trackLoadError c st sn e opts
  | .rawButtonClick p => sendButtonClick c st p
  | .rawSessionStart p => sendSessionStart c st p
  | .rawSessionEnd p => sendSessionEnd c st p
  | .rawAppLoadSuccess p => sendAppLoadSuccess c st p
  | .rawAppLoadError p => sendAppLoadError c st p

/-- The screen name a call records into the screen history (none for the
raw session start and end sends, which do not touch it). -/
def screenOf : FCall → Option (List Nat)
  | .buttonClick _ sn _ _ _ _ => some sn
  | .swipe p => some p.screen_name
  | .scroll p => some p.screen_name
  | .elementFocus p => some p.screen_name
  | .loadSuccess sn _ _ => some sn
  | .loadError sn _ _ => some sn
  | .rawButtonClick p => some p.screen_name
  | .rawSessionStart _ => none
  | .rawSessionEnd _ => none
  | .rawAppLoadSuccess p => some p.screen_name
  | .rawAppLoadError p => some p.screen_name

/-- Does the call increment the event counter? (all tracking calls do,
except the raw session start and end sends). -/
def counted : FCall → Bool
  | .rawSessionStart _ => false
  | .rawSessionEnd _ => false
  | _ => true

end FCall

/-- State reached after a sequence of tracking calls. -/
def runCalls (c : MimosFrontendAnalytics) (st : FrontendState)
    (calls : List FCall) : FrontendState :=
  calls.foldl (fun s call => (FCall.step c s call).1) st

/-- Transition count relative to the screen that is currently last:
a call whose screen equals the previous one contributes nothing. -/
def countTransAux (prev : Option (List Nat)) : List (List Nat) → Nat
  | [] => 0
  | s :: rest => (if prev = some s then 0 else 1) + countTransAux (some s) rest

/-- The number of distinct-from-previous screen transitions in a sequence
of recorded screen names (consecutive duplicates collapse; non-adjacent
repeats count again). -/
def countTransitions (screens : List (List Nat)) : Nat :=
  countTransAux none screens

theorem updateScreenHistory_getLast (h : List (List Nat)) (x : List Nat) :
    (MimosFrontendAnalytics.updateScreenHistory h x).getLast? = some x := by
  unfold MimosFrontendAnalytics.updateScreenHistory
  split
  · next heq => exact heq
  · exact List.getLast?_concat h

theorem updateScreenHistory_length (h : List (List Nat)) (x : List Nat) :
    (MimosFrontendAnalytics.updateScreenHistory h x).length =
      h.length + (if h.getLast? = some x then 0 else 1) := by
  unfold MimosFrontendAnalytics.updateScreenHistory
  split
  · next heq => simp [heq]
  · next heq => simp [heq]

theorem length_foldl_upd (l : List (List Nat)) :
    ∀ h : List (List Nat),
      (l.foldl MimosFrontendAnalytics.updateScreenHistory h).length =
        h.length + countTransAux h.getLast? l := by
  induction l with
  | nil => intro h; simp [countTransAux]
  | cons x xs ih =>
    intro h
    rw [List.foldl_cons, ih, updateScreenHistory_length,
      updateScreenHistory_getLast]
    simp only [countTransAux]
    omega

theorem getLast?_foldl_upd (l : List (List Nat)) (h : List (List Nat)) :
    (l.foldl MimosFrontendAnalytics.updateScreenHistory h).getLast? =
      if l.isEmpty then h.getLast? else l.getLast? := by
  induction l using List.reverseRecOn with
  | nil => simp
  | append_singleton l x _ =>
    rw [List.foldl_append]
    simp [updateScreenHistory_getLast, List.getLast?_concat]

theorem getLast?_foldl_upd_nil (l : List (List Nat)) :
    (l.foldl MimosFrontendAnalytics.updateScreenHistory []).getLast? =
      l.getLast? := by
  rw [getLast?_foldl_upd]
  cases l <;> simp

theorem step_eventCount (c : MimosFrontendAnalytics) (st : FrontendState)
    (call : FCall) :
    ((FCall.step c st call).1).eventCount =
      st.eventCount + (if call.counted then 1 else 0) := by
  cases call <;>
    simp [FCall.step, FCall.counted, MimosFrontendAnalytics.trackButtonClick,
      MimosFrontendAnalytics.trackSwipe, MimosFrontendAnalytics.trackScroll,
      MimosFrontendAnalytics.trackElementFocus,
      MimosFrontendAnalytics.trackLoadSuccess,
      MimosFrontendAnalytics.trackLoadError,
      MimosFrontendAnalytics.sendButtonClick,
      MimosFrontendAnalytics.sendSessionStart,
      MimosFrontendAnalytics.sendSessionEnd,
      MimosFrontendAnalytics.sendAppLoadSuccess,
      MimosFrontendAnalytics.sendAppLoadError]

theorem step_screenHistory (c : MimosFrontendAnalytics) (st : FrontendState)
    (call : FCall) :
    ((FCall.step c st call).1).screenHistory =
      match call.screenOf with
      | some s => MimosFrontendAnalytics.updateScreenHistory st.screenHistory s
      | none => st.screenHistory := by
  cases call <;>
    simp [FCall.step, FCall.screenOf, MimosFrontendAnalytics.trackButtonClick,
      MimosFrontendAnalytics.trackSwipe, MimosFrontendAnalytics.trackScroll,
      MimosFrontendAnalytics.trackElementFocus,
      MimosFrontendAnalytics.trackLoadSuccess,
      MimosFrontendAnalytics.trackLoadError,
      MimosFrontendAnalytics.sendButtonClick,
      MimosFrontendAnalytics.sendSessionStart,
      MimosFrontendAnalytics.sendSessionEnd,
      MimosFrontendAnalytics.sendAppLoadSuccess,
      MimosFrontendAnalytics.sendAppLoadError]

theorem step_sessionId (c : MimosFrontendAnalytics) (st : FrontendState)
    (call : FCall) :
    ((FCall.step c st call).1).sessionId = st.sessionId := by
  cases call <;>
    simp [FCall.step, MimosFrontendAnalytics.trackButtonClick,
      MimosFrontendAnalytics.trackSwipe, MimosFrontendAnalytics.trackScroll,
      MimosFrontendAnalytics.trackElementFocus,
      MimosFrontendAnalytics.trackLoadSuccess,
      MimosFrontendAnalytics.trackLoadError,
      MimosFrontendAnalytics.sendButtonClick,
      MimosFrontendAnalytics.sendSessionStart,
      MimosFrontendAnalytics.sendSessionEnd,
      MimosFrontendAnalytics.sendAppLoadSuccess,
      MimosFrontendAnalytics.sendAppLoadError]

theorem step_sessionStartTime (c : MimosFrontendAnalytics)
    (st : FrontendState) (call : FCall) :
    ((FCall.step c st call).1).sessionStartTime = st.sessionStartTime := by
  cases call <;>
    simp [FCall.step, MimosFrontendAnalytics.trackButtonClick,
      MimosFrontendAnalytics.trackSwipe, MimosFrontendAnalytics.trackScroll,
      MimosFrontendAnalytics.trackElementFocus,
      MimosFrontendAnalytics.trackLoadSuccess,
      MimosFrontendAnalytics.trackLoadError,
      MimosFrontendAnalytics.sendButtonClick,
      MimosFrontendAnalytics.sendSessionStart,
      MimosFrontendAnalytics.sendSessionEnd,
      MimosFrontendAnalytics.sendAppLoadSuccess,
      MimosFrontendAnalytics.sendAppLoadError]

theorem runCalls_eventCount (c : MimosFrontendAnalytics) (calls : List FCall) :
    ∀ st : FrontendState,
      (runCalls c st calls).eventCount =
        st.eventCount + calls.countP FCall.counted := by
  induction calls with
  | nil => intro st; simp [runCalls]
  | cons call rest ih =>
    intro st
    show (runCalls c ((FCall.step c st call).1) rest).eventCount = _
    rw [ih, step_eventCount, List.countP_cons]
    cases h : call.counted
    · simp [h]
    · simp [h]; omega

theorem runCalls_screenHistory (c : MimosFrontendAnalytics)
    (calls : List FCall) :
    ∀ st : FrontendState,
      (runCalls c st calls).screenHistory =
        (calls.filterMap FCall.screenOf).foldl
          MimosFrontendAnalytics.updateScreenHistory st.screenHistory := by
  induction calls with
  | nil => intro st; simp [runCalls]
  | cons call rest ih =>
    intro st
    show (runCalls c ((FCall.step c st call).1) rest).screenHistory = _
    rw [ih, step_screenHistory]
    cases h : call.screenOf <;> simp [List.filterMap_cons, h]

theorem runCalls_sessionId (c : MimosFrontendAnalytics) (calls : List FCall) :
    ∀ st : FrontendState, (runCalls c st calls).sessionId = st.sessionId := by
  induction calls with
  | nil => intro st; rfl
  | cons call rest ih =>
    intro st
    show (runCalls c ((FCall.step c st call).1) rest).sessionId = _
    rw [ih, step_sessionId]

theorem runCalls_sessionStartTime (c : MimosFrontendAnalytics)
    (calls : List FCall) :
    ∀ st : FrontendState,
      (runCalls c st calls).sessionStartTime = st.sessionStartTime := by
  induction calls with
  | nil => intro st; rfl
  | cons call rest ih =>
    intro st
    show (runCalls c ((FCall.step c st call).1) rest).sessionStartTime = _
    rw [ih, step_sessionStartTime]

/-- C1: when error_type is not explicitly supplied, the wrapper's error
classification is deterministic (a pure function of the failure value) and
case-insensitive (it depends only on the lower-cased name and message),
follows the ordered substring checks of inferErrorType with the first
match winning (a message holding both timeout and validation terms gives
timeout), classifies the five sample messages as timeout, validation,
rate_limit, external and internal respectively, and classifies every
non-Error-shaped failure value as unknown. -/
theorem C1_infer_error_type_classification :
    (∀ ctorName nm msg stack,
      ToolCallTracker.inferErrorType (.err ctorName nm msg stack) =
        ToolCallTracker.inferErrorType
          (.err ctorName (lowerStr nm) (lowerStr msg) stack)) ∧
    ToolCallTracker.inferErrorType
      (.err (S "Error") (S "Error") (S "Request timed out") none) = .timeout ∧
    ToolCallTracker.inferErrorType
      (.err (S "Error") (S "Error") (S "Invalid input required") none) =
        .validation ∧
    ToolCallTracker.inferErrorType
      (.err (S "Error") (S "Error") (S "429 too many requests") none) =
        .rate_limit ∧
    ToolCallTracker.inferErrorType
      (.err (S "Error") (S "Error") (S "fetch failed: ECONNREFUSED") none) =
        .external ∧
    ToolCallTracker.inferErrorType
      (.err (S "Error") (S "Error") (S "boom") none) = .internal ∧
    ToolCallTracker.inferErrorType
      (.err (S "Error") (S "Error") (S "Invalid timeout value") none) =
        .timeout ∧
    ∀ v, ToolCallTracker.inferErrorType (.nonError v) = .unknown := by
  refine ⟨?_, by decide, by decide, by decide, by decide, by decide, by decide,
    fun v => rfl⟩
  intro ctorName nm msg stack
  simp only [ToolCallTracker.inferErrorType, lowerStr_idem]

/-- C3: track hands the operation outcome back unchanged — a success value
is returned as-is and a failure is re-raised as-is — for every environment,
in particular for every outcome of the telemetry fetch (success, non-ok
response or thrown abort), so a reporting failure never alters either
outcome. -/
theorem C3_track_outcome_passthrough {T : Type} (a : MimosAnalytics)
    (toolName : List Nat) (fnOutcome : Except ErrValue T)
    (resultJson : Option Json) (opts : ToolCallTracker.TrackOptions)
    (env : ToolCallTracker.TrackEnv) :
    (ToolCallTracker.track a toolName fnOutcome resultJson opts env).1 =
      fnOutcome := by
  cases fnOutcome <;> rfl

/-- C4: with disabled set to true in the configuration, every tracking
method of the backend tracker and of the frontend tracker hands no request
to the transport, for all inputs; each returns normally with an empty
request list. -/
theorem C4_disabled_no_network :
    (∀ (burl pid key : List Nat) (tmo : Option Nat),
      (∀ p, (MimosAnalytics.create ⟨burl, pid, key, tmo, some true⟩).trackToolCall p = []) ∧
      (∀ p, (MimosAnalytics.create ⟨burl, pid, key, tmo, some true⟩).trackToolError p = []) ∧
      (∀ tn d opts now,
        (MimosAnalytics.create ⟨burl, pid, key, tmo, some true⟩).trackSuccess tn d opts now = []) ∧
      (∀ tn e opts now,
        (MimosAnalytics.create ⟨burl, pid, key, tmo, some true⟩).trackError tn e opts now = [])) ∧
    ∀ (burl pid : List Nat) (tmo : Option Nat),
      (∀ st input idNow rand now,
        (MimosFrontendAnalytics.startSession
          (MimosFrontendAnalytics.create ⟨burl, pid, tmo, some true⟩)
          st input idNow rand now).2.1 = []) ∧
      (∀ st er now,
        (MimosFrontendAnalytics.endSession
          (MimosFrontendAnalytics.create ⟨burl, pid, tmo, some true⟩)
          st er now).2.1 = []) ∧
      (∀ st bid sn bt x y now,
        (MimosFrontendAnalytics.trackButtonClick
          (MimosFrontendAnalytics.create ⟨burl, pid, tmo, some true⟩)
          st bid sn bt x y now).2 = []) ∧
      (∀ st p,
        (MimosFrontendAnalytics.trackSwipe
          (MimosFrontendAnalytics.create ⟨burl, pid, tmo, some true⟩)
          st p).2 = []) ∧
      (∀ st p,
        (MimosFrontendAnalytics.trackScroll
          (MimosFrontendAnalytics.create ⟨burl, pid, tmo, some true⟩)
          st p).2 = []) ∧
      (∀ st p,
        (MimosFrontendAnalytics.trackElementFocus
          (MimosFrontendAnalytics.create ⟨burl, pid, tmo, some true⟩)
          st p).2 = []) ∧
      (∀ st sn lt opts,
        (MimosFrontendAnalytics.trackLoadSuccess
          (MimosFrontendAnalytics.create ⟨burl, pid, tmo, some true⟩)
          st sn lt opts).2 = []) ∧
      (∀ st sn e opts,
        (MimosFrontendAnalytics.trackLoadError
          (MimosFrontendAnalytics.create ⟨burl, pid, tmo, some true⟩)
          st sn e opts).2 = []) ∧
      (∀ st p,
        (MimosFrontendAnalytics.sendButtonClick
          (MimosFrontendAnalytics.create ⟨burl, pid, tmo, some true⟩)
          st p).2 = []) ∧
      (∀ st p,
        (MimosFrontendAnalytics.sendSessionStart
          (MimosFrontendAnalytics.create ⟨burl, pid, tmo, some true⟩)
          st p).2 = []) ∧
      (∀ st p,
        (MimosFrontendAnalytics.sendSessionEnd
          (MimosFrontendAnalytics.create ⟨burl, pid, tmo, some true⟩)
          st p).2 = []) ∧
      (∀ st p,
        (MimosFrontendAnalytics.sendAppLoadSuccess
          (MimosFrontendAnalytics.create ⟨burl, pid, tmo, some true⟩)
          st p).2 = []) ∧
      (∀ st p,
        (MimosFrontendAnalytics.sendAppLoadError
          (MimosFrontendAnalytics.create ⟨burl, pid, tmo, some true⟩)
          st p).2 = []) := by
  constructor
  · intro burl pid key tmo
    refine ⟨fun p => rfl, fun p => rfl, fun tn d opts now => rfl,
      fun tn e opts now => rfl⟩
  · intro burl pid tmo
    refine ⟨fun st input idNow rand now => rfl, ?_,
      fun st bid sn bt x y now => rfl, fun st p => rfl, fun st p => rfl,
      fun st p => rfl, fun st sn lt opts => rfl, fun st sn e opts => rfl,
      fun st p => rfl, fun st p => rfl, fun st p => rfl, fun st p => rfl,
      fun st p => rfl⟩
    intro st er now
    unfold MimosFrontendAnalytics.endSession
    rcases st.sessionId with _ | sid
    · rfl
    · rcases st.sessionStartTime with _ | t0
      · rfl
      · dsimp only
        split
        · rfl
        · rfl

/-- C5: endSession with no active session (the session id field is unset,
as initially or after a previous endSession) is a no-op: it returns the
state unchanged, hands no request to the transport, and only logs the
no-active-session warning. -/
theorem C5_end_session_without_session (c : MimosFrontendAnalytics)
    (st : FrontendState) (h : st.sessionId = none)
    (exitReason : List Nat) (now : Nat) :
    MimosFrontendAnalytics.endSession c st exitReason now =
      (st, [], [S "[MimosFrontendAnalytics] No active session to end"]) := by
  unfold MimosFrontendAnalytics.endSession
  rw [h]

/-- Witness for C5 at a concrete client and the initial state. -/
theorem C5_witness :
    ({} : FrontendState).sessionId = none ∧
    MimosFrontendAnalytics.endSession
      (MimosFrontendAnalytics.create
        ⟨S "http://localhost:8080", S "proj", none, none⟩)
      {} (S "user_exit") 1700000000000 =
      ({}, [], [S "[MimosFrontendAnalytics] No active session to end"]) :=
  ⟨rfl, C5_end_session_without_session _ {} rfl (S "user_exit") 1700000000000⟩

theorem sessionEndJson_getField (sid : List Nat) (d : Nat) (er : List Nat)
    (sv te : Nat) (ls : Option (List Nat)) :
    (MimosFrontendAnalytics.sessionEndJson sid d er sv te ls).getField
        (S "screens_visited") = some (Json.num sv) ∧
    (MimosFrontendAnalytics.sessionEndJson sid d er sv te ls).getField
        (S "total_events") = some (Json.num te) ∧
    (MimosFrontendAnalytics.sessionEndJson sid d er sv te ls).getField
        (S "last_screen") = ls.map Json.str := by
  cases ls <;> exact ⟨rfl, rfl, rfl⟩

theorem generateSessionId_isEmpty (i : Nat) (r : List Nat) :
    (MimosFrontendAnalytics.generateSessionId i r).isEmpty = false := by
  unfold MimosFrontendAnalytics.generateSessionId
  cases decDigits i <;> rfl

theorem resolvedSessionId_isEmpty (o : Option (List Nat)) (i : Nat)
    (r : List Nat) :
    (jsOrStr o (MimosFrontendAnalytics.generateSessionId i r)).isEmpty =
      false := by
  cases o with
  | none => exact generateSessionId_isEmpty i r
  | some s =>
    simp only [jsOrStr]
    by_cases hs : s.isEmpty = true
    · rw [if_pos hs]; exact generateSessionId_isEmpty i r
    · rw [if_neg hs]; simpa using hs

/-- C2: start a session, make any sequence of tracking calls, end the
session: the emitted session_end payload carries screens_visited equal to
the number of distinct-from-previous screen transitions recorded by the
calls, total_events equal to the number of calls that count as events (the
raw session start and end sends are excluded), and last_screen equal to the
last recorded screen name (absent when no screen was recorded). -/
theorem C2_session_end_counters
    (c : MimosFrontendAnalytics) (hdis : c.disabled = false)
    (st0 : FrontendState) (input : SessionStartInput)
    (idNow : Nat) (rand : List Nat) (startNow : Nat) (hstart : 0 < startNow)
    (calls : List FCall) (exitReason : List Nat) (endNow : Nat) :
    ∃ payload,
      MimosFrontendAnalytics.endSession c
          (runCalls c
            ((MimosFrontendAnalytics.startSession c st0 input idNow rand
              startNow).1) calls)
          exitReason endNow =
        ({ runCalls c
            ((MimosFrontendAnalytics.startSession c st0 input idNow rand
              startNow).1) calls
            with sessionId := none, sessionStartTime := none },
          [c.request (S "session_end") payload], []) ∧
      payload.getField (S "screens_visited") =
        some (Json.num (countTransitions (calls.filterMap FCall.screenOf))) ∧
      payload.getField (S "total_events") =
        some (Json.num (calls.countP FCall.counted)) ∧
      payload.getField (S "last_screen") =
        ((calls.filterMap FCall.screenOf).getLast?).map Json.str := by
  set sid := jsOrStr input.session_id
    (MimosFrontendAnalytics.generateSessionId idNow rand) with hsid
  set st1 := (MimosFrontendAnalytics.startSession c st0 input idNow rand
    startNow).1 with hst1
  set stN := runCalls c st1 calls with hstN
  have h1 : st1.sessionId = some sid := rfl
  have h2 : st1.sessionStartTime = some startNow := rfl
  have h3 : st1.screenHistory = [] := rfl
  have h4 : st1.eventCount = 0 := rfl
  have hN1 : stN.sessionId = some sid := by
    rw [hstN, runCalls_sessionId, h1]
  have hN2 : stN.sessionStartTime = some startNow := by
    rw [hstN, runCalls_sessionStartTime, h2]
  have hN3 : stN.screenHistory =
      (calls.filterMap FCall.screenOf).foldl
        MimosFrontendAnalytics.updateScreenHistory [] := by
    rw [hstN, runCalls_screenHistory, h3]
  have hN4 : stN.eventCount = calls.countP FCall.counted := by
    rw [hstN, runCalls_eventCount, h4, Nat.zero_add]
  refine ⟨MimosFrontendAnalytics.sessionEndJson sid (endNow - startNow)
    exitReason (countTransitions (calls.filterMap FCall.screenOf))
    (calls.countP FCall.counted)
    ((calls.filterMap FCall.screenOf).getLast?), ?_,
    (sessionEndJson_getField _ _ _ _ _ _).1,
    (sessionEndJson_getField _ _ _ _ _ _).2.1,
    (sessionEndJson_getField _ _ _ _ _ _).2.2⟩
  have hempty : sid.isEmpty = false := resolvedSessionId_isEmpty _ _ _
  have hzero : (startNow == 0) = false := by
    simp only [beq_eq_false_iff_ne, ne_eq]
    omega
  unfold MimosFrontendAnalytics.endSession
  rw [hN1, hN2]
  dsimp only
  rw [hempty, hzero, if_neg (by decide : ¬((false || false) = true))]
  rw [hN3, hN4, length_foldl_upd, getLast?_foldl_upd_nil]
  simp only [List.length_nil, List.getLast?_nil, Nat.zero_add]
  rw [MimosFrontendAnalytics.sendMetric, hdis,
    if_neg (by decide : ¬(false = true))]
  rfl

/-- Concrete frontend client for witnesses. -/
def sampleClient : MimosFrontendAnalytics :=
  MimosFrontendAnalytics.create
    ⟨S "http://localhost:8080", S "proj", none, some false⟩

/-- Concrete startSession argument for witnesses. -/
def sampleInput : SessionStartInput :=
  { device_type := S "mobile", os_name := S "ios",
    os_version := S "17.0", app_version := S "1.0.0" }

/-- Concrete call sequence: screen A three times, then screen B once. -/
def sampleCalls : List FCall :=
  [.buttonClick (S "submit") (S "A") none none none 10,
   .buttonClick (S "submit") (S "A") none none none 11,
   .buttonClick (S "submit") (S "A") none none none 12,
   .buttonClick (S "submit") (S "B") none none none 13]

/-- Witness for C2 at a concrete run: screens A, A, A, B give two
transitions and four counted events. -/
theorem C2_witness :
    sampleClient.disabled = false ∧ 0 < 1000 ∧
    (∃ payload,
      MimosFrontendAnalytics.endSession sampleClient
          (runCalls sampleClient
            ((MimosFrontendAnalytics.startSession sampleClient {} sampleInput
              999 (S "k3j9s8d7f") 1000).1) sampleCalls)
          (S "user_exit") 3000 =
        ({ runCalls sampleClient
            ((MimosFrontendAnalytics.startSession sampleClient {} sampleInput
              999 (S "k3j9s8d7f") 1000).1) sampleCalls
            with sessionId := none, sessionStartTime := none },
          [sampleClient.request (S "session_end") payload], []) ∧
      payload.getField (S "screens_visited") =
        some (Json.num (countTransitions
          (sampleCalls.filterMap FCall.screenOf))) ∧
      payload.getField (S "total_events") =
        some (Json.num (sampleCalls.countP FCall.counted)) ∧
      payload.getField (S "last_screen") =
        ((sampleCalls.filterMap FCall.screenOf).getLast?).map Json.str) ∧
    countTransitions (sampleCalls.filterMap FCall.screenOf) = 2 ∧
    sampleCalls.countP FCall.counted = 4 :=
  ⟨rfl, by decide,
    C2_session_end_counters sampleClient rfl {} sampleInput 999
      (S "k3j9s8d7f") 1000 (by decide) sampleCalls (S "user_exit") 3000,
    by decide, by decide⟩

/-- A request whose body is the JSON encoding of the two-field envelope
object, with metric_value holding the JSON string encoding of some inner
payload. -/
def envelopeShaped (r : Request) : Prop :=
  ∃ et p, r.body = (envelope et p).stringify

theorem shaped_backend_sendMetric (a : MimosAnalytics) (et : List Nat)
    (p : Json) (r : Request)
    (h : r ∈ (if a.disabled = true then [] else [a.request et p])) :
    envelopeShaped r := by
  by_cases hd : a.disabled = true
  · rw [if_pos hd] at h; cases h
  · rw [if_neg hd] at h
    rw [List.mem_singleton] at h
    subst h
    exact ⟨et, p, rfl⟩

theorem shaped_trackToolCall (a : MimosAnalytics) (p : Json) (r : Request)
    (h : r ∈ a.trackToolCall p) : envelopeShaped r :=
  shaped_backend_sendMetric a (S "tool_call") p r h

theorem shaped_trackToolError (a : MimosAnalytics) (p : Json) (r : Request)
    (h : r ∈ a.trackToolError p) : envelopeShaped r :=
  shaped_backend_sendMetric a (S "tool_error") p r h

theorem shaped_trackSuccess (a : MimosAnalytics) (tn : List Nat) (d : Nat)
    (opts : MimosAnalytics.TrackSuccessOptions) (now : Nat) (r : Request)
    (h : r ∈ a.trackSuccess tn d opts now) : envelopeShaped r :=
  shaped_trackToolCall a _ r h

theorem shaped_trackError (a : MimosAnalytics) (tn : List Nat) (e : ErrValue)
    (opts : MimosAnalytics.TrackErrorOptions) (now : Nat) (r : Request)
    (h : r ∈ a.trackError tn e opts now) : envelopeShaped r :=
  shaped_trackToolError a _ r h

theorem shaped_frontend_sendMetric (c : MimosFrontendAnalytics)
    (et : List Nat) (p : Json) (r : Request)
    (h : r ∈ c.sendMetric et p) : envelopeShaped r := by
  unfold MimosFrontendAnalytics.sendMetric at h
  by_cases hd : c.disabled = true
  · rw [if_pos hd] at h; cases h
  · rw [if_neg hd] at h
    rw [List.mem_singleton] at h
    subst h
    exact ⟨et, p, rfl⟩

theorem shaped_endSession (c : MimosFrontendAnalytics) (st : FrontendState)
    (er : List Nat) (now : Nat) (r : Request)
    (h : r ∈ (MimosFrontendAnalytics.endSession c st er now).2.1) :
    envelopeShaped r := by
  unfold MimosFrontendAnalytics.endSession at h
  cases h1 : st.sessionId with
  | none => rw [h1] at h; dsimp only at h; cases h
  | some sid =>
    cases h2 : st.sessionStartTime with
    | none => rw [h1, h2] at h; dsimp only at h; cases h
    | some t0 =>
      rw [h1, h2] at h
      dsimp only at h
      by_cases hc : (sid.isEmpty || t0 == 0) = true
      · rw [if_pos hc] at h; cases h
      · rw [if_neg hc] at h
        exact shaped_frontend_sendMetric c _ _ r h

/-- C6: every request either tracker variant hands to the transport has
the envelope shape: its body is the JSON encoding of an object with
exactly the two fields event_type and metric_value, where metric_value is
a JSON string holding the encoding of the inner payload — never a nested
JSON object (a JSON string value and a JSON object value are distinct).
The conjunction covers every public tracking method of both variants and
the wrapper. -/
theorem C6_envelope_double_encoding :
    (∀ et p, envelope et p =
      Json.obj [(S "event_type", Json.str et),
                (S "metric_value", Json.str (Json.stringify p))]) ∧
    (∀ s fields, Json.str s ≠ Json.obj fields) ∧
    (∀ a p r, r ∈ MimosAnalytics.trackToolCall a p → envelopeShaped r) ∧
    (∀ a p r, r ∈ MimosAnalytics.trackToolError a p → envelopeShaped r) ∧
    (∀ a tn d opts now r,
      r ∈ MimosAnalytics.trackSuccess a tn d opts now → envelopeShaped r) ∧
    (∀ a tn e opts now r,
      r ∈ MimosAnalytics.trackError a tn e opts now → envelopeShaped r) ∧
    (∀ (T : Type) a tn (o : Except ErrValue T) rj opts env r,
      r ∈ (ToolCallTracker.track a tn o rj opts env).2.1 →
        envelopeShaped r) ∧
    (∀ (T : Type) a tn (o : Except ErrValue T) rj opts env r,
      r ∈ (ToolCallTracker.trackWithMetadata a tn o rj opts env).2.1 →
        envelopeShaped r) ∧
    (∀ (T : Type) a tn et args (o : Except ErrValue T) rj env r,
      r ∈ (ToolCallTracker.wrap a tn et args o rj env).2.1 →
        envelopeShaped r) ∧
    (∀ c st input idNow rand now r,
      r ∈ (MimosFrontendAnalytics.startSession c st input idNow rand
        now).2.1 → envelopeShaped r) ∧
    (∀ c st er now r,
      r ∈ (MimosFrontendAnalytics.endSession c st er now).2.1 →
        envelopeShaped r) ∧
    (∀ c st bid sn bt x y now r,
      r ∈ (MimosFrontendAnalytics.trackButtonClick c st bid sn bt x y
        now).2 → envelopeShaped r) ∧
    (∀ c st p r,
      r ∈ (MimosFrontendAnalytics.trackSwipe c st p).2 →
        envelopeShaped r) ∧
    (∀ c st p r,
      r ∈ (MimosFrontendAnalytics.trackScroll c st p).2 →
        envelopeShaped r) ∧
    (∀ c st p r,
      r ∈ (MimosFrontendAnalytics.trackElementFocus c st p).2 →
        envelopeShaped r) ∧
    (∀ c st sn lt opts r,
      r ∈ (MimosFrontendAnalytics.trackLoadSuccess c st sn lt opts).2 →
        envelopeShaped r) ∧
    (∀ c st sn e opts r,
      r ∈ (MimosFrontendAnalytics.trackLoadError c st sn e opts).2 →
        envelopeShaped r) ∧
    (∀ c st p r,
      r ∈ (MimosFrontendAnalytics.sendButtonClick c st p).2 →
        envelopeShaped r) ∧
    (∀ c st p r,
      r ∈ (MimosFrontendAnalytics.sendSessionStart c st p).2 →
        envelopeShaped r) ∧
    (∀ c st p r,
      r ∈ (MimosFrontendAnalytics.sendSessionEnd c st p).2 →
        envelopeShaped r) ∧
    (∀ c st p r,
      r ∈ (MimosFrontendAnalytics.sendAppLoadSuccess c st p).2 →
        envelopeShaped r) ∧
    (∀ c st p r,
      r ∈ (MimosFrontendAnalytics.sendAppLoadError c st p).2 →
        envelopeShaped r) := by
  refine ⟨fun et p => rfl, fun s fields h => Json.noConfusion h,
    shaped_trackToolCall, shaped_trackToolError,
    fun a tn d opts now => shaped_trackSuccess a tn d opts now,
    fun a tn e opts now => shaped_trackError a tn e opts now,
    ?_, ?_, ?_,
    fun c st input idNow rand now r h =>
      shaped_frontend_sendMetric c _ _ r h,
    shaped_endSession,
    fun c st bid sn bt x y now r h =>
      shaped_frontend_sendMetric c _ _ r h,
    fun c st p r h => shaped_frontend_sendMetric c _ _ r h,
    fun c st p r h => shaped_frontend_sendMetric c _ _ r h,
    fun c st p r h => shaped_frontend_sendMetric c _ _ r h,
    fun c st sn lt opts r h => shaped_frontend_sendMetric c _ _ r h,
    fun c st sn e opts r h => shaped_frontend_sendMetric c _ _ r h,
    fun c st p r h => shaped_frontend_sendMetric c _ _ r h,
    fun c st p r h => shaped_frontend_sendMetric c _ _ r h,
    fun c st p r h => shaped_frontend_sendMetric c _ _ r h,
    fun c st p r h => shaped_frontend_sendMetric c _ _ r h,
    fun c st p r h => shaped_frontend_sendMetric c _ _ r h⟩
  · intro T a tn o rj opts env r h
    cases o with
    | ok v => exact shaped_trackSuccess a tn _ _ _ r h
    | error e => exact shaped_trackError a tn e _ _ r h
  · intro T a tn o rj opts env r h
    cases o with
    | ok v => exact shaped_trackSuccess a tn _ _ _ r h
    | error e => exact shaped_trackError a tn e _ _ r h
  · intro T a tn et args o rj env r h
    cases o with
    | ok v => exact shaped_trackSuccess a tn _ _ _ r h
    | error e => exact shaped_trackError a tn e _ _ r h

/-- Witness for C6: the concrete request emitted by a button click has
the envelope shape. -/
theorem C6_witness :
    (sampleClient.request (S "button_click")
        (Json.obj [(S "button_id", Json.str (S "b")),
                   (S "screen_name", Json.str (S "A")),
                   (S "timestamp_ms", Json.num 5)])) ∈
      (MimosFrontendAnalytics.trackButtonClick sampleClient {} (S "b")
        (S "A") none none none 5).2 ∧
    envelopeShaped (sampleClient.request (S "button_click")
      (Json.obj [(S "button_id", Json.str (S "b")),
                 (S "screen_name", Json.str (S "A")),
                 (S "timestamp_ms", Json.num 5)])) := by
  have hm : (sampleClient.request (S "button_click")
      (Json.obj [(S "button_id", Json.str (S "b")),
                 (S "screen_name", Json.str (S "A")),
                 (S "timestamp_ms", Json.num 5)])) ∈
      (MimosFrontendAnalytics.trackButtonClick sampleClient {} (S "b")
        (S "A") none none none 5).2 := List.mem_singleton.mpr rfl
  exact ⟨hm,
    C6_envelope_double_encoding.2.2.2.2.2.2.2.2.2.2.2.1 sampleClient {}
      (S "b") (S "A") none none none 5 _ hm⟩

/-- The junction property the claim asserts of a base URL: after one
trailing slash is stripped, the trimmed base does not end in a slash, so
exactly one slash — the leading slash of the fixed suffix — stands between
the trimmed base and the suffix in the concatenated endpoint URL. -/
def oneSlashAtJunction (base : List Nat) : Prop :=
  ¬ (stripTrailingSlash base).getLast? = some 47

/-- Does the string end in two slashes? (the configurations the claim
overreaches on). -/
def endsWithTwoSlashes (s : List Nat) : Bool :=
  (s.getLast? == some 47) && (s.dropLast.getLast? == some 47)

/-- C7 counterexample: a base URL ending in two trailing slashes violates
the claim as stated — only one slash is stripped, the trimmed base still
ends in a slash, and the computed backend endpoint URL carries a double
slash before the v1 segment. -/
theorem C7_counterexample :
    ¬ oneSlashAtJunction (S "http://x//") ∧
    stripTrailingSlash (S "http://x//") = S "http://x/" ∧
    (MimosAnalytics.create
        ⟨S "http://x//", S "p", S "k", none, none⟩).backendMetricsUrl =
      S "http://x//v1/backend-metrics/write/" := by
  refine ⟨?_, by decide, by decide⟩
  unfold oneSlashAtJunction
  decide

theorem stripTrailingSlash_no_slash (s : List Nat)
    (h : endsWithTwoSlashes s = false) :
    ¬ (stripTrailingSlash s).getLast? = some 47 := by
  unfold stripTrailingSlash
  by_cases h1 : s.getLast? = some 47
  · rw [if_pos h1]
    intro h2
    have ht : endsWithTwoSlashes s = true := by
      unfold endsWithTwoSlashes
      rw [h1, h2]
      rfl
    rw [h] at ht
    exact Bool.false_ne_true ht
  · rw [if_neg h1]
    exact h1

/-- C7 amended: for every configuration whose base URL ends with at most
one trailing slash (it does not end in a double slash), the endpoint URL
computed at construction is the trimmed base followed by exactly one slash
and the fixed per-variant suffix, the trimmed base not ending in a slash;
only one trailing slash is stripped, so a base ending in two or more
slashes keeps the extra ones (see the counterexample). -/
theorem C7_one_slash_between_base_and_suffix (cfg : MimosAnalyticsConfig)
    (fcfg : MimosFrontendConfig)
    (hb : endsWithTwoSlashes cfg.baseUrl = false)
    (hf : endsWithTwoSlashes fcfg.baseUrl = false) :
    ((MimosAnalytics.create cfg).backendMetricsUrl =
        stripTrailingSlash cfg.baseUrl ++
          47 :: S "v1/backend-metrics/write/" ∧
      oneSlashAtJunction cfg.baseUrl) ∧
    ((MimosFrontendAnalytics.create fcfg).frontendMetricsUrl =
        stripTrailingSlash fcfg.baseUrl ++
          47 :: S "v1/frontend-metrics/write/" ∧
      oneSlashAtJunction fcfg.baseUrl) :=
  ⟨⟨rfl, stripTrailingSlash_no_slash _ hb⟩,
   ⟨rfl, stripTrailingSlash_no_slash _ hf⟩⟩

/-- Witness for C7 at concrete bases with no trailing slash and with one
trailing slash. -/
theorem C7_witness :
    endsWithTwoSlashes (S "http://a.example") = false ∧
    endsWithTwoSlashes (S "http://b.example/") = false ∧
    ((MimosAnalytics.create
          ⟨S "http://a.example", S "p", S "k", none, none⟩).backendMetricsUrl =
        stripTrailingSlash (S "http://a.example") ++
          47 :: S "v1/backend-metrics/write/" ∧
      oneSlashAtJunction (S "http://a.example")) ∧
    ((MimosFrontendAnalytics.create
          ⟨S "http://b.example/", S "p", none, none⟩).frontendMetricsUrl =
        stripTrailingSlash (S "http://b.example/") ++
          47 :: S "v1/frontend-metrics/write/" ∧
      oneSlashAtJunction (S "http://b.example/")) := by
  refine ⟨by decide, by decide, ?_⟩
  exact C7_one_slash_between_base_and_suffix
    ⟨S "http://a.example", S "p", S "k", none, none⟩
    ⟨S "http://b.example/", S "p", none, none⟩ (by decide) (by decide)

theorem track_ok_requests {T : Type} (a : MimosAnalytics)
    (hd : a.disabled = false) (tn : List Nat) (v : T) (rj : Option Json)
    (opts : ToolCallTracker.TrackOptions) (env : ToolCallTracker.TrackEnv) :
    (ToolCallTracker.track a tn (.ok v) rj opts env).2.1 =
      [a.request (S "tool_call") (ToolCallPayload.toJson
        { tool_name := tn
          duration_ms := env.endNow - env.startNow
          status := S "success"
          timestamp_ms := env.reportNow
          call_id := some (jsOrStr opts.callId
            (generateCallId env.idNow env.rand))
          parameters := ToolCallTracker.parametersString opts.parameters
          response_size_bytes :=
            rj.map (fun j => (Json.stringify j).length) })] := by
  dsimp only [ToolCallTracker.track, MimosAnalytics.trackSuccess,
    MimosAnalytics.trackToolCall]
  rw [hd]
  rfl

theorem toolCallPayload_getField_parameters (p : ToolCallPayload) :
    (ToolCallPayload.toJson p).getField (S "parameters") =
      p.parameters.map Json.str := by
  rcases p with ⟨tn, cid, d, st, pars, rs, ts⟩
  cases cid <;> cases pars <;> cases rs <;> rfl

/-- C8: a wrapped function invoked with exactly one truthy argument
records that argument alone as the parameters of the emitted tool_call
payload; invoked with zero or with two or more arguments it records the
full ordered argument list; and the capture rule itself is: a singleton
argument list is unwrapped, anything else is passed as the list. -/
theorem C8_wrap_argument_capture {T : Type} (a : MimosAnalytics)
    (hd : a.disabled = false) (tn : List Nat)
    (et : Option ToolErrorType) (rj : Option Json)
    (env : ToolCallTracker.TrackEnv) :
    (∀ (x : Json) (v : T), jsTruthy x = true →
      ∃ p, (ToolCallTracker.wrap a tn et [x] (.ok v) rj env).2.1 =
          [a.request (S "tool_call") p] ∧
        p.getField (S "parameters") =
          some (Json.str (Json.stringify x))) ∧
    (∀ (args : List Json) (v : T), args.length ≠ 1 →
      ∃ p, (ToolCallTracker.wrap a tn et args (.ok v) rj env).2.1 =
          [a.request (S "tool_call") p] ∧
        p.getField (S "parameters") =
          some (Json.str (Json.stringify (Json.arr args)))) ∧
    (∀ args, ToolCallTracker.wrapParameters args =
      if args.length = 1 then args.headD Json.null else Json.arr args) := by
  refine ⟨?_, ?_, fun args => rfl⟩
  · intro x v hx
    have hps : ToolCallTracker.parametersString
        (some (ToolCallTracker.wrapParameters [x])) =
        some (Json.stringify x) := by
      show ToolCallTracker.parametersString (some x) = _
      simp only [ToolCallTracker.parametersString]
      rw [if_pos hx]
    refine ⟨_, track_ok_requests a hd tn v rj _ env, ?_⟩
    rw [toolCallPayload_getField_parameters]
    dsimp only
    rw [hps]
    rfl
  · intro args v hlen
    have hwp : ToolCallTracker.wrapParameters args = Json.arr args := by
      unfold ToolCallTracker.wrapParameters
      rw [if_neg hlen]
    have hps : ToolCallTracker.parametersString
        (some (ToolCallTracker.wrapParameters args)) =
        some (Json.stringify (Json.arr args)) := by
      rw [hwp]
      simp only [ToolCallTracker.parametersString]
      rw [if_pos (by rfl : jsTruthy (Json.arr args) = true)]
    refine ⟨_, track_ok_requests a hd tn v rj _ env, ?_⟩
    rw [toolCallPayload_getField_parameters]
    dsimp only
    rw [hps]
    rfl

/-- Witness for C8: a concrete backend client, a one-argument invocation
with a truthy argument and a two-argument invocation. -/
theorem C8_witness :
    (MimosAnalytics.create
      ⟨S "http://a.example", S "p", S "k", none, some false⟩).disabled =
        false ∧
    jsTruthy (Json.str (S "query")) = true ∧
    (∃ p, (ToolCallTracker.wrap
        (MimosAnalytics.create
          ⟨S "http://a.example", S "p", S "k", none, some false⟩)
        (S "search") none [Json.str (S "query")]
        (.ok (0 : Nat)) none {}).2.1 =
        [(MimosAnalytics.create
          ⟨S "http://a.example", S "p", S "k", none, some false⟩).request
            (S "tool_call") p] ∧
      p.getField (S "parameters") =
        some (Json.str (Json.stringify (Json.str (S "query"))))) ∧
    ((2 : Nat) ≠ 1) ∧
    (∃ p, (ToolCallTracker.wrap
        (MimosAnalytics.create
          ⟨S "http://a.example", S "p", S "k", none, some false⟩)
        (S "search") none [Json.num 1, Json.num 2]
        (.ok (0 : Nat)) none {}).2.1 =
        [(MimosAnalytics.create
          ⟨S "http://a.example", S "p", S "k", none, some false⟩).request
            (S "tool_call") p] ∧
      p.getField (S "parameters") =
        some (Json.str (Json.stringify
          (Json.arr [Json.num 1, Json.num 2])))) :=
  ⟨rfl, rfl,
    (C8_wrap_argument_capture
      (MimosAnalytics.create
        ⟨S "http://a.example", S "p", S "k", none, some false⟩)
      rfl (S "search") none none {}).1 (Json.str (S "query")) 0 rfl,
    by decide,
    (C8_wrap_argument_capture
      (MimosAnalytics.create
        ⟨S "http://a.example", S "p", S "k", none, some false⟩)
      rfl (S "search") none none {}).2.1 [Json.num 1, Json.num 2] 0
      (by decide)⟩

/-- Is the caller-supplied error_code override truthy (present and
non-empty)? -/
def truthyOverride : Option (List Nat) → Bool
  | some s => !s.isEmpty
  | none => false

/-- C9 counterexample: on an Error-shaped value whose class (constructor)
name is MyError while its name property is the default Error — as for a
subclass of Error that never sets name — the backend extraction yields the
constructor name and the frontend extraction yields the name property, so
the two extraction functions are not equal. -/
theorem C9_counterexample :
    MimosAnalytics.extractErrorCode none
      (.err (S "MyError") (S "Error") (S "boom") none) = S "MyError" ∧
    MimosFrontendAnalytics.extractErrorCode none
      (.err (S "MyError") (S "Error") (S "boom") none) = S "Error" ∧
    MimosAnalytics.extractErrorCode none
        (.err (S "MyError") (S "Error") (S "boom") none) ≠
      MimosFrontendAnalytics.extractErrorCode none
        (.err (S "MyError") (S "Error") (S "boom") none) :=
  ⟨by decide, by decide, by decide⟩

/-- C9 amended: the frontend trackLoadError extracts error_message and
stack_trace exactly as the backend trackError does, and both give
error_code as the truthy caller override when supplied and the literal
Error for non-Error-shaped values; but on an Error-shaped value without a
truthy override the backend falls back to the constructor (class) name and
the frontend to the name property, so the two error_code extractions agree
exactly when a truthy override is supplied or the name property equals the
constructor name. -/
theorem C9_extraction_comparison :
    (∀ e, MimosAnalytics.extractErrorMessage e =
      MimosFrontendAnalytics.extractErrorMessage e) ∧
    (∀ e, MimosAnalytics.extractStackTrace e =
      MimosFrontendAnalytics.extractStackTrace e) ∧
    (∀ o v, MimosAnalytics.extractErrorCode o (.nonError v) =
      MimosFrontendAnalytics.extractErrorCode o (.nonError v)) ∧
    (∀ o ctorName nm msg stk,
      MimosAnalytics.extractErrorCode o (.err ctorName nm msg stk) =
          MimosFrontendAnalytics.extractErrorCode o
            (.err ctorName nm msg stk) ↔
        (truthyOverride o = true ∨ ctorName = nm)) := by
  refine ⟨fun e => by cases e <;> rfl, fun e => by cases e <;> rfl,
    fun o v => rfl, ?_⟩
  intro o ctorName nm msg stk
  cases o with
  | none =>
    simp only [MimosAnalytics.extractErrorCode,
      MimosFrontendAnalytics.extractErrorCode, jsOrStr, truthyOverride]
    simp
  | some s =>
    simp only [MimosAnalytics.extractErrorCode,
      MimosFrontendAnalytics.extractErrorCode, jsOrStr, truthyOverride]
    by_cases hs : s.isEmpty = true
    · rw [if_pos hs, if_pos hs]
      simp [hs]
    · rw [if_neg hs, if_neg hs]
      simp [Bool.not_eq_true] at hs
      simp [hs]

theorem toolCallPayload_getField_callId (p : ToolCallPayload) :
    (ToolCallPayload.toJson p).getField (S "call_id") =
      p.call_id.map Json.str := by
  rcases p with ⟨tn, cid, d, st, pars, rs, ts⟩
  cases cid <;> cases pars <;> cases rs <;> rfl

theorem sessionStartJson_getField_sessionId (p : SessionStartInput)
    (sid : List Nat) :
    (p.toJsonWith sid).getField (S "session_id") = some (Json.str sid) := by
  rcases p with ⟨s, dt, osn, osv, av, dm, sw, sh, lc, tz⟩
  cases dm <;> cases sw <;> cases sh <;> cases lc <;> cases tz <;> rfl

/-- C10: a caller-supplied empty-string identifier is treated as absent.
With call_id set to the empty string, track emits a tool_call whose
call_id is the generated identifier, and trackWithMetadata returns the
generated identifier; with session_id set to the empty string,
startSession returns the generated identifier, stores it in the session
state, and emits it in the session_start payload. The generated
identifiers are never the empty string, and when the random fractional
base36 digit string has at least nine digits each generated identifier is
the epoch milliseconds in decimal, a hyphen, and a nine-character
suffix. -/
theorem C10_empty_string_id_generates {T : Type} (a : MimosAnalytics)
    (hd : a.disabled = false) (c : MimosFrontendAnalytics)
    (hcd : c.disabled = false) (tn : List Nat) (v : T) (rj : Option Json)
    (pars : Option Json) (et : Option ToolErrorType)
    (env : ToolCallTracker.TrackEnv) (st : FrontendState)
    (input0 : SessionStartInput) (idNow : Nat) (rand : List Nat) (now : Nat)
    (h9 : 9 ≤ rand.length) (h9e : 9 ≤ env.rand.length) :
    (∃ p, (ToolCallTracker.track a tn (.ok v) rj
        { callId := some [], parameters := pars, errorType := et }
        env).2.1 = [a.request (S "tool_call") p] ∧
      p.getField (S "call_id") =
        some (Json.str (generateCallId env.idNow env.rand))) ∧
    (ToolCallTracker.trackWithMetadata a tn (.ok v) rj
        { callId := some [], parameters := pars, errorType := et } env).1 =
      .ok { result := v, durationMs := env.endNow - env.startNow,
            callId := generateCallId env.idNow env.rand } ∧
    (MimosFrontendAnalytics.startSession c st
        { input0 with session_id := some [] } idNow rand now).2.2 =
      MimosFrontendAnalytics.generateSessionId idNow rand ∧
    (MimosFrontendAnalytics.startSession c st
        { input0 with session_id := some [] } idNow rand now).1.sessionId =
      some (MimosFrontendAnalytics.generateSessionId idNow rand) ∧
    (∃ pl, (MimosFrontendAnalytics.startSession c st
        { input0 with session_id := some [] } idNow rand now).2.1 =
        [c.request (S "session_start") pl] ∧
      pl.getField (S "session_id") =
        some (Json.str (MimosFrontendAnalytics.generateSessionId
          idNow rand))) ∧
    generateCallId env.idNow env.rand ≠ [] ∧
    MimosFrontendAnalytics.generateSessionId idNow rand ≠ [] ∧
    MimosFrontendAnalytics.generateSessionId idNow rand =
      decDigits idNow ++ [45] ++ rand.take 9 ∧
    (rand.take 9).length = 9 ∧
    generateCallId env.idNow env.rand =
      decDigits env.idNow ++ [45] ++ env.rand.take 9 ∧
    (env.rand.take 9).length = 9 := by
  refine ⟨?_, ?_, rfl, rfl, ?_, ?_, ?_, ?_, ?_, ?_, ?_⟩
  · refine ⟨_, track_ok_requests a hd tn v rj _ env, ?_⟩
    rw [toolCallPayload_getField_callId]
    rfl
  · rfl
  · refine ⟨({ input0 with session_id := some [] } :
      SessionStartInput).toJsonWith
        (MimosFrontendAnalytics.generateSessionId idNow rand), ?_,
      sessionStartJson_getField_sessionId _ _⟩
    show c.sendMetric _ _ = _
    unfold MimosFrontendAnalytics.sendMetric
    rw [hcd]
    rfl
  · intro h
    have := congrArg List.length h
    simp [generateCallId] at this
  · intro h
    have := congrArg List.length h
    simp [MimosFrontendAnalytics.generateSessionId] at this
  · simp [MimosFrontendAnalytics.generateSessionId]
  · simp only [List.length_take]
    omega
  · simp [generateCallId]
  · simp only [List.length_take]
    omega

/-- Concrete backend client for witnesses. -/
def sampleBackend : MimosAnalytics :=
  MimosAnalytics.create ⟨S "http://a.example", S "p", S "k", none, some false⟩

/-- Concrete tracking environment for witnesses (ten random base36
digits). -/
def sampleEnv : ToolCallTracker.TrackEnv :=
  { idNow := 7, rand := S "abcdefghij", startNow := 1, endNow := 3,
    reportNow := 4 }

/-- Witness for C10 at concrete clients, a concrete environment and
concrete empty-string identifiers. -/
theorem C10_witness :
    sampleBackend.disabled = false ∧ sampleClient.disabled = false ∧
    9 ≤ (S "abcdefghij").length ∧ 9 ≤ sampleEnv.rand.length ∧
    ((∃ p, (ToolCallTracker.track sampleBackend (S "tool")
        (.ok (0 : Nat)) none
        { callId := some [], parameters := none, errorType := none }
        sampleEnv).2.1 = [sampleBackend.request (S "tool_call") p] ∧
      p.getField (S "call_id") =
        some (Json.str (generateCallId sampleEnv.idNow sampleEnv.rand))) ∧
    (ToolCallTracker.trackWithMetadata sampleBackend (S "tool")
        (.ok (0 : Nat)) none
        { callId := some [], parameters := none, errorType := none }
        sampleEnv).1 =
      .ok { result := 0, durationMs := sampleEnv.endNow - sampleEnv.startNow,
            callId := generateCallId sampleEnv.idNow sampleEnv.rand } ∧
    (MimosFrontendAnalytics.startSession sampleClient {}
        { sampleInput with session_id := some [] } 7 (S "abcdefghij")
        1000).2.2 =
      MimosFrontendAnalytics.generateSessionId 7 (S "abcdefghij") ∧
    (MimosFrontendAnalytics.startSession sampleClient {}
        { sampleInput with session_id := some [] } 7 (S "abcdefghij")
        1000).1.sessionId =
      some (MimosFrontendAnalytics.generateSessionId 7 (S "abcdefghij")) ∧
    (∃ pl, (MimosFrontendAnalytics.startSession sampleClient {}
        { sampleInput with session_id := some [] } 7 (S "abcdefghij")
        1000).2.1 = [sampleClient.request (S "session_start") pl] ∧
      pl.getField (S "session_id") =
        some (Json.str (MimosFrontendAnalytics.generateSessionId 7
          (S "abcdefghij")))) ∧
    generateCallId sampleEnv.idNow sampleEnv.rand ≠ [] ∧
    MimosFrontendAnalytics.generateSessionId 7 (S "abcdefghij") ≠ [] ∧
    MimosFrontendAnalytics.generateSessionId 7 (S "abcdefghij") =
      decDigits 7 ++ [45] ++ (S "abcdefghij").take 9 ∧
    ((S "abcdefghij").take 9).length = 9 ∧
    generateCallId sampleEnv.idNow sampleEnv.rand =
      decDigits sampleEnv.idNow ++ [45] ++ sampleEnv.rand.take 9 ∧
    (sampleEnv.rand.take 9).length = 9) :=
  ⟨rfl, rfl, by decide, by decide,
    C10_empty_string_id_generates sampleBackend rfl sampleClient rfl
      (S "tool") 0 none none none sampleEnv {} sampleInput 7
      (S "abcdefghij") 1000 (by decide) (by decide)⟩
